import Mathlib

/-!
Verification of the `create` scaffolding pipeline
(`src/cli/src/tasks/create.ts`).

The pipeline is embedded as a trace-producing interpreter: every call to an
external collaborator (validation check, interactive prompt, filesystem
primitive, subprocess, platform mutator) appends an `Event` to a trace, and
an `Env` oracle decides the call's result.  Control flow (the `try`/`catch`
in `createCommand`, short-circuiting on thrown errors, and the
process-terminating `logFatal`) is made explicit in the `Res` result type.
-/

namespace CapCreate

/-- A JavaScript thrown value as `createCommand`'s catch observes it: the
catch branches on `typeof e === 'string'`, so we distinguish plain string
errors from every other shape. -/
inductive Err
  | str (s : String)
  | other
deriving DecidableEq, Repr

/-- One observable call made by the pipeline.  Each constructor corresponds
to one collaborator invocation or configuration mutation in
`src/cli/src/tasks/create.ts`. -/
inductive Event
  | checkAppDir (dir : String)
  | checkAppId (id : String)
  | checkAppName (name : String)
  | logWelcome
  | promptDir
  | promptName
  | promptAppId
  | existsCheck (dir : String)
  | mkdir (dir : String)
  | setCwd (dir : String)
  | setAppName (v : String)
  | setAppId (v : String)
  | setBundledWebRuntime (b : Bool)
  | getOrCreateConfig
  | taskStart (desc : String)
  | taskEnd (desc : String)
  | cpTemplate (src : String) (dst : String)
  | npmInstall (dir : String) (pkgs : List String)
  | addIOS
  | addAndroid
  | syncPlatform (pname : String)
  | editIOS
  | editAndroid
  | copyWeb (pname : String)
  | logUsage
  | logFatalMsg (e : Err)
  | printNextSteps
deriving DecidableEq, Repr

abbrev Trace := List Event

/-- Result of running a pipeline fragment: normal completion, a thrown
JavaScript error (caught by `createCommand`'s catch), or process
termination via `logFatal` (which exits and can not be caught). -/
inductive Res (α : Type)
  | ok (a : α)
  | thrown (e : Err)
  | exited (msg : String)
deriving DecidableEq, Repr

/-- A pipeline fragment: the events it emitted plus its result. -/
abbrev M (α : Type) := Trace × Res α

/-- Sequencing of `await`ed steps: a thrown error or a process exit
short-circuits everything after it. -/
def mseq {α β : Type} (x : M α) (f : α → M β) : M β :=
  match x with
  | (t, Res.ok a) => (t ++ (f a).1, (f a).2)
  | (t, Res.thrown e) => (t, Res.thrown e)
  | (t, Res.exited m) => (t, Res.exited m)

/-- Lift an oracle-decided fallible external call into the pipeline. -/
def fromOpt (t : Trace) : Option Err → M Unit
  | none => (t, Res.ok ())
  | some e => (t, Res.thrown e)

/-- Host operating system, from `../definitions`' `OS`; the pipeline only
ever compares against `OS.Mac`. -/
inductive OS
  | mac
  | windows
  | linux
  | unknownOS
deriving DecidableEq, Repr

/-- The oracle for every external collaborator the pipeline calls, plus the
configuration fields it reads (`config.cli.os`, `config.app.assets.templateDir`,
`config.web.name`, `config.ios.name`, `config.android.name`).  A check result
of `none` means the check passed; `some msg` is the descriptive failure value
it signals.  An operation result of `none` means success; `some e` means the
call threw `e`. -/
structure Env where
  os : OS
  checkAppDirRes : String → Option String
  checkAppIdRes : String → Option String
  checkAppNameRes : String → Option String
  answerDir : String
  answerName : String
  answerId : String
  dirExists : String → Bool
  mkdirRes : String → Option Err
  cfgRes : Option Err
  cpRes : Option Err
  npmRes : Option Err
  addIOSRes : Option Err
  addAndroidRes : Option Err
  syncRes : String → Option Err
  editIOSRes : Option Err
  editAndroidRes : Option Err
  copyRes : String → Option Err
  templateDir : String
  webName : String
  iosName : String
  androidName : String

/-- The three check closures `createCommand` builds for the `check` helper. -/
inductive CheckSpec
  | appDir (dir : String)
  | appId (id : String)
  | appName (name : String)
deriving DecidableEq, Repr

/-- The trace event recording that a check ran. -/
def checkEvent : CheckSpec → Event
  | CheckSpec.appDir d => Event.checkAppDir d
  | CheckSpec.appId i => Event.checkAppId i
  | CheckSpec.appName n => Event.checkAppName n

/-- The oracle's verdict for a check. -/
def checkResult (env : Env) : CheckSpec → Option String
  | CheckSpec.appDir d => env.checkAppDirRes d
  | CheckSpec.appId i => env.checkAppIdRes i
  | CheckSpec.appName n => env.checkAppNameRes n

/-- Modelled from the spec: the `check` helper lives in `../common`, which is
not under `src/`; §4.1 specifies that it executes the checks in sequence,
stops at the first failing check, and propagates that failure as a
descriptive (string) value, with later checks never run. -/
def check (env : Env) : List CheckSpec → M Unit
  | [] => ([], Res.ok ())
  | c :: cs =>
    match checkResult env c with
    | none => mseq ([checkEvent c], Res.ok ()) fun _ => check env cs
    | some msg => ([checkEvent c], Res.thrown (Err.str msg))

/-- Modelled from the spec: inquirer is an external collaborator; an empty
prompt response falls back to the prompt's configured default when one is
present, and is passed through unchanged when there is none. -/
def inquirerAnswer (dflt : Option String) (raw : String) : String :=
  match dflt with
  | some d => if raw = "" then d else raw
  | none => raw

/-- `getDir`: prompt for the directory only when the caller-supplied value is
empty; the prompt has no default. -/
def getDir (env : Env) (dir : String) : M String :=
  if dir = "" then ([Event.promptDir], Res.ok (inquirerAnswer none env.answerDir))
  else ([], Res.ok dir)

/-- `getName`: prompt for the app name only when the caller-supplied value is
empty; the prompt's default is `App`. -/
def getName (env : Env) (name : String) : M String :=
  if name = "" then
    ([Event.promptName], Res.ok (inquirerAnswer (some "App") env.answerName))
  else ([], Res.ok name)

/-- `getAppId`: prompt for the app id only when the caller-supplied value is
empty; the prompt's default is `com.example.app`. -/
def getAppId (env : Env) (id : String) : M String :=
  if id = "" then
    ([Event.promptAppId], Res.ok (inquirerAnswer (some "com.example.app") env.answerId))
  else ([], Res.ok id)

/-- `makeDirectory`: if the target exists, `logFatal` terminates the run with
a message naming the directory (modelled from the spec: `logFatal` from
`../common` is not under `src/`; §4.3 and the glossary specify fatal
termination of the process); otherwise `mkdirAsync` creates it. -/
def makeDirectory (env : Env) (dir : String) : M Unit :=
  if env.dirExists dir then
    let msg := "The directory " ++ dir ++ " already exists. Please remove it before creating your app"
    ([Event.existsCheck dir, Event.logFatalMsg (Err.str msg)], Res.exited msg)
  else
    mseq ([Event.existsCheck dir], Res.ok ()) fun _ =>
      fromOpt [Event.mkdir dir] (env.mkdirRes dir)

/-- Modelled from the spec: `runTask` (`StepRunner`, §4.7) lives in
`../common`, which is not under `src/`; it prints a start indicator, runs the
action, prints a success indicator on completion, and propagates the action's
failure unchanged. -/
def runTask {α : Type} (desc : String) (action : M α) : M α :=
  match action with
  | (t, Res.ok a) => (Event.taskStart desc :: t ++ [Event.taskEnd desc], Res.ok a)
  | (t, r) => (Event.taskStart desc :: t, r)

/-- `create`: one reported task that recursively copies the template
directory into the workspace. -/
def create (env : Env) (dir appName appId : String) : M Unit :=
  runTask ("Creating app " ++ appName ++ " in " ++ dir ++ " with id " ++ appId)
    (fromOpt [Event.cpTemplate env.templateDir dir] env.cpRes)

/-- `installDeps`: one reported task running
`cd dir && npm install --save @capacitor/cli @capacitor/core`. -/
def installDeps (env : Env) (dir : String) : M Unit :=
  runTask "Installing dependencies"
    (fromOpt [Event.npmInstall dir ["@capacitor/cli", "@capacitor/core"]] env.npmRes)

/-- `addPlatforms`: on macOS add and sync iOS first, then unconditionally add
and sync Android, all inside one reported task. -/
def addPlatforms (env : Env) (dir : String) : M Unit :=
  runTask "add default platforms"
    (mseq
      (if env.os = OS.mac then
        mseq (fromOpt [Event.addIOS] env.addIOSRes) fun _ =>
          fromOpt [Event.syncPlatform env.iosName] (env.syncRes env.iosName)
      else ([], Res.ok ())) fun _ =>
      mseq (fromOpt [Event.addAndroid] env.addAndroidRes) fun _ =>
        fromOpt [Event.syncPlatform env.androidName] (env.syncRes env.androidName))

/-- `editPlatforms`: edit iOS project settings only on macOS, then
unconditionally edit Android project settings. -/
def editPlatforms (env : Env) : M Unit :=
  mseq (if env.os = OS.mac then fromOpt [Event.editIOS] env.editIOSRes
        else ([], Res.ok ())) fun _ =>
    fromOpt [Event.editAndroid] env.editAndroidRes

/-- The body of `createCommand`'s `try` block, in source order. -/
def tryBody (env : Env) (dir name id : String) : M Unit :=
  mseq (check env [CheckSpec.appDir dir, CheckSpec.appId id, CheckSpec.appName name]) fun _ =>
  mseq ([Event.logWelcome], Res.ok ()) fun _ =>
  mseq (getDir env dir) fun appDir =>
  mseq (makeDirectory env appDir) fun _ =>
  mseq ([Event.setCwd appDir], Res.ok ()) fun _ =>
  mseq (getName env name) fun appName =>
  mseq (getAppId env id) fun appId =>
  mseq ([Event.setAppName appName, Event.setAppId appId,
         Event.setBundledWebRuntime true], Res.ok ()) fun _ =>
  mseq (fromOpt [Event.getOrCreateConfig] env.cfgRes) fun _ =>
  mseq (create env appDir appName appId) fun _ =>
  mseq (installDeps env appDir) fun _ =>
  mseq (addPlatforms env appDir) fun _ =>
  mseq (editPlatforms env) fun _ =>
  mseq (fromOpt [Event.copyWeb env.webName] (env.copyRes env.webName)) fun _ =>
  ([Event.printNextSteps], Res.ok ())

/-- How one run of `createCommand` ends.  `fatalCaught` is the catch handler
reporting a thrown error via `logFatal`; `fatalExit` is `logFatal` called
inside the pipeline (directory already exists).  Both terminate the process
with a non-zero status. -/
inductive Outcome
  | success
  | fatalCaught (e : Err)
  | fatalExit (msg : String)
deriving DecidableEq, Repr

/-- Whether the run terminated the process with a non-zero status. -/
def exitsNonzero : Outcome → Bool
  | Outcome.success => false
  | Outcome.fatalCaught _ => true
  | Outcome.fatalExit _ => true

/-- `createCommand`: run the try body; on a thrown error, print the usage
hint exactly when the error is a plain string, then report it fatally. -/
def createCommand (env : Env) (dir name id : String) : Trace × Outcome :=
  match tryBody env dir name id with
  | (t, Res.ok _) => (t, Outcome.success)
  | (t, Res.exited m) => (t, Outcome.fatalExit m)
  | (t, Res.thrown e) =>
    (t ++ (match e with | Err.str _ => [Event.logUsage] | Err.other => [])
       ++ [Event.logFatalMsg e],
     Outcome.fatalCaught e)

/-- The directory value the pipeline ends up using (caller value verbatim
when non-empty, otherwise the raw prompt response, no default). -/
def resolvedDir (env : Env) (dir : String) : String :=
  if dir = "" then env.answerDir else dir

/-- The app name the pipeline ends up using. -/
def resolvedName (env : Env) (name : String) : String :=
  if name = "" then (if env.answerName = "" then "App" else env.answerName)
  else name

/-- The app id the pipeline ends up using. -/
def resolvedId (env : Env) (id : String) : String :=
  if id = "" then (if env.answerId = "" then "com.example.app" else env.answerId)
  else id

/-- All three validation checks pass and every stage up to and including the
persisted-config step succeeds. -/
abbrev EarlyOk (env : Env) (dir name id : String) : Prop :=
  env.checkAppDirRes dir = none ∧
  env.checkAppIdRes id = none ∧
  env.checkAppNameRes name = none ∧
  env.dirExists (resolvedDir env dir) = false ∧
  env.mkdirRes (resolvedDir env dir) = none ∧
  env.cfgRes = none

/-- Every platform-bootstrap collaborator and the final web-asset copy
succeed. -/
abbrev LateOk (env : Env) : Prop :=
  env.addIOSRes = none ∧
  env.addAndroidRes = none ∧
  env.syncRes env.iosName = none ∧
  env.syncRes env.androidName = none ∧
  env.editIOSRes = none ∧
  env.editAndroidRes = none ∧
  env.copyRes env.webName = none

/-- Every external call made on some run of the pipeline succeeds. -/
abbrev AllOk (env : Env) (dir name id : String) : Prop :=
  EarlyOk env dir name id ∧ env.cpRes = none ∧ env.npmRes = none ∧ LateOk env

/-- The description string of the template-copy task. -/
def creatingDesc (env : Env) (dir name id : String) : String :=
  "Creating app " ++ resolvedName env name ++ " in " ++ resolvedDir env dir ++
    " with id " ++ resolvedId env id

/-- Closed form of the event trace of a fully successful run. -/
def successTrace (env : Env) (dir name id : String) : Trace :=
  [Event.checkAppDir dir, Event.checkAppId id, Event.checkAppName name,
   Event.logWelcome] ++
  (if dir = "" then [Event.promptDir] else []) ++
  [Event.existsCheck (resolvedDir env dir), Event.mkdir (resolvedDir env dir),
   Event.setCwd (resolvedDir env dir)] ++
  (if name = "" then [Event.promptName] else []) ++
  (if id = "" then [Event.promptAppId] else []) ++
  [Event.setAppName (resolvedName env name), Event.setAppId (resolvedId env id),
   Event.setBundledWebRuntime true, Event.getOrCreateConfig,
   Event.taskStart (creatingDesc env dir name id),
   Event.cpTemplate env.templateDir (resolvedDir env dir),
   Event.taskEnd (creatingDesc env dir name id),
   Event.taskStart "Installing dependencies",
   Event.npmInstall (resolvedDir env dir) ["@capacitor/cli", "@capacitor/core"],
   Event.taskEnd "Installing dependencies",
   Event.taskStart "add default platforms"] ++
  (if env.os = OS.mac then [Event.addIOS, Event.syncPlatform env.iosName] else []) ++
  [Event.addAndroid, Event.syncPlatform env.androidName,
   Event.taskEnd "add default platforms"] ++
  (if env.os = OS.mac then [Event.editIOS] else []) ++
  [Event.editAndroid, Event.copyWeb env.webName, Event.printNextSteps]

/-- The events of every stage before template instantiation, on a run where
those stages all succeed. -/
def preTemplateTrace (env : Env) (dir name id : String) : Trace :=
  [Event.checkAppDir dir, Event.checkAppId id, Event.checkAppName name,
   Event.logWelcome] ++
  (if dir = "" then [Event.promptDir] else []) ++
  [Event.existsCheck (resolvedDir env dir), Event.mkdir (resolvedDir env dir),
   Event.setCwd (resolvedDir env dir)] ++
  (if name = "" then [Event.promptName] else []) ++
  (if id = "" then [Event.promptAppId] else []) ++
  [Event.setAppName (resolvedName env name), Event.setAppId (resolvedId env id),
   Event.setBundledWebRuntime true, Event.getOrCreateConfig]

/-- The usage-hint block the catch handler prints: present exactly for plain
string errors. -/
def usageFor : Err → Trace
  | Err.str _ => [Event.logUsage]
  | Err.other => []

/-- Every pipeline event that belongs to a stage after the template copy. -/
def afterCopyFail : Event → Bool
  | Event.npmInstall _ _ => true
  | Event.addIOS => true
  | Event.addAndroid => true
  | Event.syncPlatform _ => true
  | Event.editIOS => true
  | Event.editAndroid => true
  | Event.copyWeb _ => true
  | Event.printNextSteps => true
  | _ => false

/-- Every pipeline event that belongs to a stage after the dependency
install. -/
def afterInstallFail : Event → Bool
  | Event.addIOS => true
  | Event.addAndroid => true
  | Event.syncPlatform _ => true
  | Event.editIOS => true
  | Event.editAndroid => true
  | Event.copyWeb _ => true
  | Event.printNextSteps => true
  | _ => false

/-- Index of the first occurrence of `e` in `t` (length of `t` if absent). -/
def firstPos (t : Trace) (e : Event) : Nat :=
  match t with
  | [] => 0
  | x :: xs => if x = e then 0 else firstPos xs e + 1

/-- Events that mutate the filesystem or spawn a subprocess: directory
creation, the persisted-config write, the template copy, the dependency
install, and every platform add/sync/edit plus the web-asset copy. -/
def mutatingEv : Event → Bool
  | Event.mkdir _ => true
  | Event.getOrCreateConfig => true
  | Event.cpTemplate _ _ => true
  | Event.npmInstall _ _ => true
  | Event.addIOS => true
  | Event.addAndroid => true
  | Event.syncPlatform _ => true
  | Event.editIOS => true
  | Event.editAndroid => true
  | Event.copyWeb _ => true
  | _ => false

/-- Validation, prompting, and the early mutating steps: the events whose
relative order settles where interactive resolution sits in the pipeline. -/
def resolutionPhase : Event → Bool
  | Event.checkAppDir _ => true
  | Event.checkAppId _ => true
  | Event.checkAppName _ => true
  | Event.promptDir => true
  | Event.promptName => true
  | Event.promptAppId => true
  | Event.mkdir _ => true
  | Event.getOrCreateConfig => true
  | Event.cpTemplate _ _ => true
  | _ => false

/-- Validation, the app-identity mutations, and the OS-independent mutating
steps around them. -/
def identityPhase : Event → Bool
  | Event.checkAppDir _ => true
  | Event.checkAppId _ => true
  | Event.checkAppName _ => true
  | Event.mkdir _ => true
  | Event.setAppName _ => true
  | Event.setAppId _ => true
  | Event.cpTemplate _ _ => true
  | Event.npmInstall _ _ => true
  | Event.addAndroid => true
  | _ => false

/-- Same as `identityPhase` but also tracking the iOS platform add. -/
def identityPhaseIOS : Event → Bool
  | Event.addIOS => true
  | e => identityPhase e

/-- The platform-bootstrap collaborator invocations. -/
def platformEv : Event → Bool
  | Event.addIOS => true
  | Event.addAndroid => true
  | Event.syncPlatform _ => true
  | Event.editIOS => true
  | Event.editAndroid => true
  | _ => false

/-- Task reporting plus the two template-instantiation sub-step bodies. -/
def taskPhase : Event → Bool
  | Event.taskStart _ => true
  | Event.taskEnd _ => true
  | Event.cpTemplate _ _ => true
  | Event.npmInstall _ _ => true
  | _ => false

/-- The tail of a successful run: last project-setting edit, web-asset copy,
final report. -/
def finishPhase : Event → Bool
  | Event.editAndroid => true
  | Event.copyWeb _ => true
  | Event.printNextSteps => true
  | _ => false

/-- A concrete oracle on macOS where every external call succeeds; the
directory prompt answers `my-app` and the name and id prompts are answered
blank. -/
def envOk : Env where
  os := OS.mac
  checkAppDirRes := fun _ => none
  checkAppIdRes := fun _ => none
  checkAppNameRes := fun _ => none
  answerDir := "my-app"
  answerName := ""
  answerId := ""
  dirExists := fun _ => false
  mkdirRes := fun _ => none
  cfgRes := none
  cpRes := none
  npmRes := none
  addIOSRes := none
  addAndroidRes := none
  syncRes := fun _ => none
  editIOSRes := none
  editAndroidRes := none
  copyRes := fun _ => none
  templateDir := "assets/app-template"
  webName := "web"
  iosName := "ios"
  androidName := "android"

/-- The same oracle on a non-macOS host. -/
def envLinux : Env := { envOk with os := OS.linux }

/-- The all-success oracle with an id-prompt response that no validation
check ever saw. -/
def envPrompted : Env := { envOk with answerId := "Bad Id!!" }

/-- An oracle whose app-id check fails with a descriptive string. -/
def envCheckFail : Env :=
  { envOk with checkAppIdRes := fun _ => some "invalid App ID" }

/-- An oracle for which every target directory already exists. -/
def envPre : Env := { envOk with dirExists := fun _ => true }

/-- An oracle whose template copy throws a non-string error. -/
def envCpFail : Env := { envOk with cpRes := some Err.other }

/-- An oracle whose dependency install throws a non-string error. -/
def envNpmFail : Env := { envOk with npmRes := some Err.other }

theorem createCommand_allOk (env : Env) (dir name id : String)
    (h : AllOk env dir name id) :
    createCommand env dir name id = (successTrace env dir name id, Outcome.success) := by
  obtain ⟨⟨h1, h2, h3, h4, h5, h6⟩, h7, h8, h9, h10, h11, h12, h13, h14, h15⟩ := h
  by_cases hd : dir = "" <;> by_cases hn : name = "" <;> by_cases hi : id = "" <;>
    by_cases hos : env.os = OS.mac <;>
    simp_all [createCommand, tryBody, check, checkResult, checkEvent, mseq, fromOpt,
      getDir, getName, getAppId, inquirerAnswer, makeDirectory, runTask, create,
      installDeps, addPlatforms, editPlatforms, successTrace, resolvedDir,
      resolvedName, resolvedId, creatingDesc]

/-- C1 counterexample: with all three parameters missing and every external
call succeeding, the directory `my-app` is created by `makeDirectory` before
the app-name and app-id prompts run, so interactive resolution of all three
missing parameters does not happen strictly before `makeDirectory`. -/
theorem C1_counterexample :
    Event.mkdir "my-app" ∈ (createCommand envOk "" "" "").1 ∧
    Event.promptName ∈ (createCommand envOk "" "" "").1 ∧
    Event.promptAppId ∈ (createCommand envOk "" "" "").1 ∧
    firstPos (createCommand envOk "" "" "").1 (Event.mkdir "my-app") <
      firstPos (createCommand envOk "" "" "").1 Event.promptName ∧
    firstPos (createCommand envOk "" "" "").1 Event.promptName <
      firstPos (createCommand envOk "" "" "").1 Event.promptAppId := by
  decide

/-- C1 (amended): on a run with all three parameters missing in which every
external call succeeds, interactive resolution happens strictly after
validation; the directory prompt happens before the directory is created by
`makeDirectory`, while the app-name and app-id prompts happen after the
directory is created but before any further filesystem mutation (config
write, template copy, and everything later). -/
theorem C1_resolution_order (env : Env) (h : AllOk env "" "" "") :
    ((createCommand env "" "" "").1).filter resolutionPhase =
      [Event.checkAppDir "", Event.checkAppId "", Event.checkAppName "",
       Event.promptDir, Event.mkdir env.answerDir, Event.promptName,
       Event.promptAppId, Event.getOrCreateConfig,
       Event.cpTemplate env.templateDir env.answerDir] := by
  rw [createCommand_allOk env "" "" "" h]
  by_cases hos : env.os = OS.mac <;>
    simp [successTrace, resolvedDir, resolvedName, resolvedId, creatingDesc,
      resolutionPhase, hos]

/-- C1 witness: the amended ordering at the concrete all-success oracle. -/
theorem C1_resolution_order_witness :
    AllOk envOk "" "" "" ∧
    ((createCommand envOk "" "" "").1).filter resolutionPhase =
      [Event.checkAppDir "", Event.checkAppId "", Event.checkAppName "",
       Event.promptDir, Event.mkdir envOk.answerDir, Event.promptName,
       Event.promptAppId, Event.getOrCreateConfig,
       Event.cpTemplate envOk.templateDir envOk.answerDir] :=
  ⟨by decide, C1_resolution_order envOk (by decide)⟩

/-- C2 counterexample: with the app id left to the prompt, the value stored
in `config.app.appId` (`Bad Id!!`) was never passed to `checkAppId` (only the
empty caller value was), and the `mkdir` filesystem mutation happens before
the value is even set — so the stored identity values have not passed
validation before the first filesystem mutation. -/
theorem C2_counterexample :
    Event.setAppId "Bad Id!!" ∈ (createCommand envPrompted "d" "n" "").1 ∧
    Event.checkAppId "Bad Id!!" ∉ (createCommand envPrompted "d" "n" "").1 ∧
    Event.checkAppId "" ∈ (createCommand envPrompted "d" "n" "").1 ∧
    Event.mkdir "d" ∈ (createCommand envPrompted "d" "n" "").1 ∧
    firstPos (createCommand envPrompted "d" "n" "").1 (Event.mkdir "d") <
      firstPos (createCommand envPrompted "d" "n" "").1 (Event.setAppId "Bad Id!!") := by
  decide

/-- C2 (amended): on every fully successful run, the caller-supplied
directory, id, and name pass `checkAppDir`/`checkAppId`/`checkAppName`
before any filesystem mutation; the values stored in `config.app.appName`
and `config.app.appId` are always non-empty; they are stored after the
workspace directory is created but before the template copy, dependency
install, and platform adds; interactively resolved values are stored without
re-validation (only the original caller values appear in check events). -/
theorem C2_identity_invariant (env : Env) (dir name id : String)
    (h : AllOk env dir name id) :
    resolvedName env name ≠ "" ∧ resolvedId env id ≠ "" ∧
    ((createCommand env dir name id).1).filter identityPhase =
      [Event.checkAppDir dir, Event.checkAppId id, Event.checkAppName name,
       Event.mkdir (resolvedDir env dir),
       Event.setAppName (resolvedName env name),
       Event.setAppId (resolvedId env id),
       Event.cpTemplate env.templateDir (resolvedDir env dir),
       Event.npmInstall (resolvedDir env dir) ["@capacitor/cli", "@capacitor/core"],
       Event.addAndroid] ∧
    (env.os = OS.mac →
      ((createCommand env dir name id).1).filter identityPhaseIOS =
        [Event.checkAppDir dir, Event.checkAppId id, Event.checkAppName name,
         Event.mkdir (resolvedDir env dir),
         Event.setAppName (resolvedName env name),
         Event.setAppId (resolvedId env id),
         Event.cpTemplate env.templateDir (resolvedDir env dir),
         Event.npmInstall (resolvedDir env dir) ["@capacitor/cli", "@capacitor/core"],
         Event.addIOS, Event.addAndroid]) := by
  refine ⟨?_, ?_, ?_, ?_⟩
  · by_cases h1 : name = "" <;> by_cases h2 : env.answerName = "" <;>
      simp [resolvedName, h1, h2]
  · by_cases h1 : id = "" <;> by_cases h2 : env.answerId = "" <;>
      simp [resolvedId, h1, h2]
  · rw [createCommand_allOk env dir name id h]
    by_cases hd : dir = "" <;> by_cases hn : name = "" <;> by_cases hi : id = "" <;>
      by_cases hos : env.os = OS.mac <;>
      simp [successTrace, identityPhase, hd, hn, hi, hos]
  · intro hos
    rw [createCommand_allOk env dir name id h]
    by_cases hd : dir = "" <;> by_cases hn : name = "" <;> by_cases hi : id = "" <;>
      simp [successTrace, identityPhase, identityPhaseIOS, hd, hn, hi, hos]

/-- C2 witness: the amended invariant at the concrete all-success oracle on
macOS with all three inputs caller-supplied. -/
theorem C2_identity_invariant_witness :
    AllOk envOk "d" "My App" "com.example.myapp" ∧
    (resolvedName envOk "My App" ≠ "" ∧ resolvedId envOk "com.example.myapp" ≠ "" ∧
     ((createCommand envOk "d" "My App" "com.example.myapp").1).filter identityPhase =
       [Event.checkAppDir "d", Event.checkAppId "com.example.myapp",
        Event.checkAppName "My App", Event.mkdir (resolvedDir envOk "d"),
        Event.setAppName (resolvedName envOk "My App"),
        Event.setAppId (resolvedId envOk "com.example.myapp"),
        Event.cpTemplate envOk.templateDir (resolvedDir envOk "d"),
        Event.npmInstall (resolvedDir envOk "d") ["@capacitor/cli", "@capacitor/core"],
        Event.addAndroid] ∧
     (envOk.os = OS.mac →
       ((createCommand envOk "d" "My App" "com.example.myapp").1).filter identityPhaseIOS =
         [Event.checkAppDir "d", Event.checkAppId "com.example.myapp",
          Event.checkAppName "My App", Event.mkdir (resolvedDir envOk "d"),
          Event.setAppName (resolvedName envOk "My App"),
          Event.setAppId (resolvedId envOk "com.example.myapp"),
          Event.cpTemplate envOk.templateDir (resolvedDir envOk "d"),
          Event.npmInstall (resolvedDir envOk "d") ["@capacitor/cli", "@capacitor/core"],
          Event.addIOS, Event.addAndroid])) :=
  ⟨by decide, C2_identity_invariant envOk "d" "My App" "com.example.myapp" (by decide)⟩

/-- C3: if any validation check fails, the run reports a string failure
fatally and its trace contains no filesystem-mutating or subprocess event:
no directory creation, no config write, no copy, no install, no platform
step. -/
theorem C3_validation_failure_no_mutation (env : Env) (dir name id : String)
    (h : ¬(env.checkAppDirRes dir = none ∧ env.checkAppIdRes id = none ∧
           env.checkAppNameRes name = none)) :
    (∀ e ∈ (createCommand env dir name id).1, mutatingEv e = false) ∧
    ∃ msg, (createCommand env dir name id).2 = Outcome.fatalCaught (Err.str msg) := by
  cases h1 : env.checkAppDirRes dir with
  | some m =>
    simp [createCommand, tryBody, check, checkResult, checkEvent, mseq, h1, mutatingEv]
  | none =>
    cases h2 : env.checkAppIdRes id with
    | some m =>
      simp [createCommand, tryBody, check, checkResult, checkEvent, mseq, h1, h2,
        mutatingEv]
    | none =>
      cases h3 : env.checkAppNameRes name with
      | some m =>
        simp [createCommand, tryBody, check, checkResult, checkEvent, mseq, h1, h2, h3,
          mutatingEv]
      | none => exact absurd ⟨h1, h2, h3⟩ h

/-- C3 witness: a failing app-id check at the concrete oracle leaves a
mutation-free trace and a fatal string outcome. -/
theorem C3_validation_failure_no_mutation_witness :
    (∀ e ∈ (createCommand envCheckFail "d" "n" "i").1, mutatingEv e = false) ∧
    ∃ msg, (createCommand envCheckFail "d" "n" "i").2 = Outcome.fatalCaught (Err.str msg) :=
  C3_validation_failure_no_mutation envCheckFail "d" "n" "i" (by decide)

/-- C4: when the resolved target directory already exists (and validation
passed), the run terminates fatally with a message naming that directory,
the trace ends at the existence check, and it contains no mutating event:
no mkdir, no config write, no template copy, no install, no platform
bootstrap. -/
theorem C4_preexisting_dir (env : Env) (dir name id : String)
    (h1 : env.checkAppDirRes dir = none) (h2 : env.checkAppIdRes id = none)
    (h3 : env.checkAppNameRes name = none)
    (hex : env.dirExists (resolvedDir env dir) = true) :
    createCommand env dir name id =
      ([Event.checkAppDir dir, Event.checkAppId id, Event.checkAppName name,
        Event.logWelcome] ++
       (if dir = "" then [Event.promptDir] else []) ++
       [Event.existsCheck (resolvedDir env dir),
        Event.logFatalMsg (Err.str ("The directory " ++ resolvedDir env dir ++
          " already exists. Please remove it before creating your app"))],
       Outcome.fatalExit ("The directory " ++ resolvedDir env dir ++
         " already exists. Please remove it before creating your app")) ∧
    (∀ e ∈ (createCommand env dir name id).1, mutatingEv e = false) := by
  by_cases hd : dir = "" <;>
    simp_all [createCommand, tryBody, check, checkResult, checkEvent, mseq, fromOpt,
      getDir, inquirerAnswer, makeDirectory, resolvedDir, mutatingEv]

/-- C4 witness: the pre-existing-directory behaviour at the concrete
oracle whose filesystem reports every path as existing. -/
theorem C4_preexisting_dir_witness :
    createCommand envPre "d" "n" "i" =
      ([Event.checkAppDir "d", Event.checkAppId "i", Event.checkAppName "n",
        Event.logWelcome] ++
       (if "d" = "" then [Event.promptDir] else []) ++
       [Event.existsCheck (resolvedDir envPre "d"),
        Event.logFatalMsg (Err.str ("The directory " ++ resolvedDir envPre "d" ++
          " already exists. Please remove it before creating your app"))],
       Outcome.fatalExit ("The directory " ++ resolvedDir envPre "d" ++
         " already exists. Please remove it before creating your app")) ∧
    (∀ e ∈ (createCommand envPre "d" "n" "i").1, mutatingEv e = false) :=
  C4_preexisting_dir envPre "d" "n" "i" (by decide) (by decide) (by decide) (by decide)

/-- C5: on a run that reaches platform bootstrap (every external call
succeeds), on macOS the platform collaborators run in the order add-iOS,
sync(iOS), add-Android, sync(Android), edit-iOS, edit-Android; on any other
host only add-Android, sync(Android), edit-Android run and no iOS
collaborator is invoked. -/
theorem C5_platform_bootstrap (env : Env) (dir name id : String)
    (h : AllOk env dir name id) (hnames : env.iosName ≠ env.androidName) :
    (env.os = OS.mac →
      ((createCommand env dir name id).1).filter platformEv =
        [Event.addIOS, Event.syncPlatform env.iosName, Event.addAndroid,
         Event.syncPlatform env.androidName, Event.editIOS, Event.editAndroid]) ∧
    (env.os ≠ OS.mac →
      ((createCommand env dir name id).1).filter platformEv =
        [Event.addAndroid, Event.syncPlatform env.androidName, Event.editAndroid] ∧
      Event.addIOS ∉ (createCommand env dir name id).1 ∧
      Event.editIOS ∉ (createCommand env dir name id).1 ∧
      Event.syncPlatform env.iosName ∉ (createCommand env dir name id).1) := by
  rw [createCommand_allOk env dir name id h]
  constructor
  · intro hos
    by_cases hd : dir = "" <;> by_cases hn : name = "" <;> by_cases hi : id = "" <;>
      simp [successTrace, platformEv, hd, hn, hi, hos]
  · intro hos
    by_cases hd : dir = "" <;> by_cases hn : name = "" <;> by_cases hi : id = "" <;>
      simp [successTrace, platformEv, hd, hn, hi, hos, hnames]

/-- C5 witness: the macOS ordering at the concrete all-success oracle. -/
theorem C5_platform_bootstrap_witness :
    (envOk.os = OS.mac →
      ((createCommand envOk "d" "n" "i").1).filter platformEv =
        [Event.addIOS, Event.syncPlatform envOk.iosName, Event.addAndroid,
         Event.syncPlatform envOk.androidName, Event.editIOS, Event.editAndroid]) ∧
    (envOk.os ≠ OS.mac →
      ((createCommand envOk "d" "n" "i").1).filter platformEv =
        [Event.addAndroid, Event.syncPlatform envOk.androidName, Event.editAndroid] ∧
      Event.addIOS ∉ (createCommand envOk "d" "n" "i").1 ∧
      Event.editIOS ∉ (createCommand envOk "d" "n" "i").1 ∧
      Event.syncPlatform envOk.iosName ∉ (createCommand envOk "d" "n" "i").1) :=
  C5_platform_bootstrap envOk "d" "n" "i" (by decide) (by decide)

/-- C6: on a fully successful run, each of directory, name, and id is
prompted for exactly when the caller-supplied value is empty; the directory
used is the caller value verbatim or the raw prompt response (no default),
the stored name falls back to `App` and the stored id to `com.example.app`
exactly when their prompt responses are empty. -/
theorem C6_input_resolution (env : Env) (dir name id : String)
    (h : AllOk env dir name id) :
    (Event.promptDir ∈ (createCommand env dir name id).1 ↔ dir = "") ∧
    (Event.promptName ∈ (createCommand env dir name id).1 ↔ name = "") ∧
    (Event.promptAppId ∈ (createCommand env dir name id).1 ↔ id = "") ∧
    Event.mkdir (if dir = "" then env.answerDir else dir) ∈
      (createCommand env dir name id).1 ∧
    Event.setAppName (if name = "" then
        (if env.answerName = "" then "App" else env.answerName) else name) ∈
      (createCommand env dir name id).1 ∧
    Event.setAppId (if id = "" then
        (if env.answerId = "" then "com.example.app" else env.answerId) else id) ∈
      (createCommand env dir name id).1 := by
  rw [createCommand_allOk env dir name id h]
  by_cases hd : dir = "" <;> by_cases hn : name = "" <;> by_cases hi : id = "" <;>
    by_cases hos : env.os = OS.mac <;>
    simp [successTrace, resolvedDir, resolvedName, resolvedId, hd, hn, hi, hos]

/-- C6 witness: resolution at the concrete oracle with all three inputs
missing, directory prompt answered `my-app`, name and id prompts answered
blank. -/
theorem C6_input_resolution_witness :
    (Event.promptDir ∈ (createCommand envOk "" "" "").1 ↔ ("" : String) = "") ∧
    (Event.promptName ∈ (createCommand envOk "" "" "").1 ↔ ("" : String) = "") ∧
    (Event.promptAppId ∈ (createCommand envOk "" "" "").1 ↔ ("" : String) = "") ∧
    Event.mkdir (if ("" : String) = "" then envOk.answerDir else "") ∈
      (createCommand envOk "" "" "").1 ∧
    Event.setAppName (if ("" : String) = "" then
        (if envOk.answerName = "" then "App" else envOk.answerName) else "") ∈
      (createCommand envOk "" "" "").1 ∧
    Event.setAppId (if ("" : String) = "" then
        (if envOk.answerId = "" then "com.example.app" else envOk.answerId) else "") ∈
      (createCommand envOk "" "" "").1 :=
  C6_input_resolution envOk "" "" "" (by decide)

/-- C7: for every oracle and every ordered check sequence, if every check
before `c` passes and `c` fails with message `msg`, then `check` runs
exactly the checks up to and including `c` (its trace is precisely their
events, so the later checks never execute) and propagates the failure as
the thrown string `msg`. -/
theorem C7_check_short_circuit (env : Env) (pre : List CheckSpec) (c : CheckSpec)
    (post : List CheckSpec) (msg : String)
    (hpre : ∀ c' ∈ pre, checkResult env c' = none)
    (hc : checkResult env c = some msg) :
    check env (pre ++ c :: post) =
      ((pre ++ [c]).map checkEvent, Res.thrown (Err.str msg)) := by
  induction pre with
  | nil => simp [check, hc]
  | cons p ps ih =>
    have hp : checkResult env p = none := hpre p (by simp)
    have hps : ∀ c' ∈ ps, checkResult env c' = none := by
      intro c' hc'
      exact hpre c' (by simp [hc'])
    simp [check, hp, mseq, ih hps]

/-- C7 witness: with `checkAppDir` passing and `checkAppId` failing, only
those two checks run and the failure string is propagated; `checkAppName`
never executes. -/
theorem C7_check_short_circuit_witness :
    check envCheckFail
        ([CheckSpec.appDir "d"] ++ CheckSpec.appId "i" :: [CheckSpec.appName "n"]) =
      (([CheckSpec.appDir "d"] ++ [CheckSpec.appId "i"]).map checkEvent,
       Res.thrown (Err.str "invalid App ID")) :=
  C7_check_short_circuit envCheckFail [CheckSpec.appDir "d"] (CheckSpec.appId "i")
    [CheckSpec.appName "n"] "invalid App ID" (by decide) (by decide)

/-- C10: on every fully successful run, after the last project-setting edit
and before the final report, the pipeline performs the web-asset copy
`copy(config, config.web.name)` — a stage absent from the spec's control
flow. -/
theorem C10_web_asset_copy (env : Env) (dir name id : String)
    (h : AllOk env dir name id) :
    (createCommand env dir name id).2 = Outcome.success ∧
    ((createCommand env dir name id).1).filter finishPhase =
      [Event.editAndroid, Event.copyWeb env.webName, Event.printNextSteps] := by
  rw [createCommand_allOk env dir name id h]
  refine ⟨rfl, ?_⟩
  by_cases hd : dir = "" <;> by_cases hn : name = "" <;> by_cases hi : id = "" <;>
    by_cases hos : env.os = OS.mac <;>
    simp [successTrace, finishPhase, hd, hn, hi, hos]

/-- C10 witness: the web-asset copy stage at the concrete all-success
oracle. -/
theorem C10_web_asset_copy_witness :
    (createCommand envOk "d" "n" "i").2 = Outcome.success ∧
    ((createCommand envOk "d" "n" "i").1).filter finishPhase =
      [Event.editAndroid, Event.copyWeb envOk.webName, Event.printNextSteps] :=
  C10_web_asset_copy envOk "d" "n" "i" (by decide)

theorem fromOpt_fst (t : Trace) (o : Option Err) : (fromOpt t o).1 = t := by
  cases o <;> rfl

theorem mem_mseq {α β : Type} {x : M α} {f : α → M β} {e : Event}
    (he : e ∈ (mseq x f).1) : e ∈ x.1 ∨ ∃ a, e ∈ (f a).1 := by
  rcases x with ⟨t, r⟩
  cases r with
  | ok a =>
    simp only [mseq, List.mem_append] at he
    rcases he with h | h
    · exact Or.inl h
    · exact Or.inr ⟨a, h⟩
  | thrown e' => exact Or.inl he
  | exited m => exact Or.inl he

theorem mem_runTask {α : Type} {desc : String} {a : M α} {e : Event}
    (he : e ∈ (runTask desc a).1) :
    e = Event.taskStart desc ∨ e = Event.taskEnd desc ∨ e ∈ a.1 := by
  rcases a with ⟨t, r⟩
  cases r <;> simp [runTask] at he <;> tauto

theorem check_no_usage (env : Env) (cs : List CheckSpec) :
    Event.logUsage ∉ (check env cs).1 := by
  induction cs with
  | nil => simp [check]
  | cons c cs ih =>
    cases h : checkResult env c with
    | none => cases c <;> simp_all [check, checkEvent, mseq]
    | some m => cases c <;> simp_all [check, checkEvent]

theorem getDir_no_usage (env : Env) (dir : String) :
    Event.logUsage ∉ (getDir env dir).1 := by
  unfold getDir; split <;> simp

theorem getName_no_usage (env : Env) (name : String) :
    Event.logUsage ∉ (getName env name).1 := by
  unfold getName; split <;> simp

theorem getAppId_no_usage (env : Env) (id : String) :
    Event.logUsage ∉ (getAppId env id).1 := by
  unfold getAppId; split <;> simp

theorem makeDirectory_no_usage (env : Env) (d : String) :
    Event.logUsage ∉ (makeDirectory env d).1 := by
  intro h
  unfold makeDirectory at h
  split at h
  · simp at h
  · rcases mem_mseq h with h | ⟨_, h⟩
    · simp at h
    · rw [fromOpt_fst] at h; simp at h

theorem create_no_usage (env : Env) (d n i : String) :
    Event.logUsage ∉ (create env d n i).1 := by
  intro h
  unfold create at h
  rcases mem_runTask h with h | h | h
  · simp at h
  · simp at h
  · rw [fromOpt_fst] at h; simp at h

theorem installDeps_no_usage (env : Env) (d : String) :
    Event.logUsage ∉ (installDeps env d).1 := by
  intro h
  unfold installDeps at h
  rcases mem_runTask h with h | h | h
  · simp at h
  · simp at h
  · rw [fromOpt_fst] at h; simp at h

theorem addPlatforms_no_usage (env : Env) (d : String) :
    Event.logUsage ∉ (addPlatforms env d).1 := by
  intro h
  unfold addPlatforms at h
  rcases mem_runTask h with h | h | h
  · simp at h
  · simp at h
  · rcases mem_mseq h with h | ⟨_, h⟩
    · by_cases hos : env.os = OS.mac
      · rw [if_pos hos] at h
        rcases mem_mseq h with h | ⟨_, h⟩ <;> rw [fromOpt_fst] at h <;> simp at h
      · rw [if_neg hos] at h; simp at h
    · rcases mem_mseq h with h | ⟨_, h⟩ <;> rw [fromOpt_fst] at h <;> simp at h

theorem editPlatforms_no_usage (env : Env) :
    Event.logUsage ∉ (editPlatforms env).1 := by
  intro h
  unfold editPlatforms at h
  rcases mem_mseq h with h | ⟨_, h⟩
  · by_cases hos : env.os = OS.mac
    · rw [if_pos hos] at h; rw [fromOpt_fst] at h; simp at h
    · rw [if_neg hos] at h; simp at h
  · rw [fromOpt_fst] at h; simp at h

theorem tryBody_no_usage (env : Env) (dir name id : String) :
    Event.logUsage ∉ (tryBody env dir name id).1 := by
  intro hmem
  unfold tryBody at hmem
  rcases mem_mseq hmem with h | ⟨_, h⟩
  · exact check_no_usage env _ h
  rcases mem_mseq h with h | ⟨_, h⟩
  · simp at h
  rcases mem_mseq h with h | ⟨appDir, h⟩
  · exact getDir_no_usage env dir h
  rcases mem_mseq h with h | ⟨_, h⟩
  · exact makeDirectory_no_usage env appDir h
  rcases mem_mseq h with h | ⟨_, h⟩
  · simp at h
  rcases mem_mseq h with h | ⟨appName, h⟩
  · exact getName_no_usage env name h
  rcases mem_mseq h with h | ⟨appId, h⟩
  · exact getAppId_no_usage env id h
  rcases mem_mseq h with h | ⟨_, h⟩
  · simp at h
  rcases mem_mseq h with h | ⟨_, h⟩
  · rw [fromOpt_fst] at h; simp at h
  rcases mem_mseq h with h | ⟨_, h⟩
  · exact create_no_usage env appDir appName appId h
  rcases mem_mseq h with h | ⟨_, h⟩
  · exact installDeps_no_usage env appDir h
  rcases mem_mseq h with h | ⟨_, h⟩
  · exact addPlatforms_no_usage env appDir h
  rcases mem_mseq h with h | ⟨_, h⟩
  · exact editPlatforms_no_usage env h
  rcases mem_mseq h with h | ⟨_, h⟩
  · rw [fromOpt_fst] at h; simp at h
  · simp at h

/-- C8: whenever `createCommand` catches a failure, the usage instructions
are printed if and only if the failure value is a plain string; the failure
is always reported via `logFatal` and the process terminates with a
non-zero status. -/
theorem C8_failure_contract (env : Env) (dir name id : String) (e : Err)
    (h : (createCommand env dir name id).2 = Outcome.fatalCaught e) :
    (Event.logUsage ∈ (createCommand env dir name id).1 ↔ ∃ s, e = Err.str s) ∧
    Event.logFatalMsg e ∈ (createCommand env dir name id).1 ∧
    exitsNonzero (createCommand env dir name id).2 = true := by
  have hnu := tryBody_no_usage env dir name id
  rcases htb : tryBody env dir name id with ⟨t, r⟩
  rw [htb] at hnu
  cases r with
  | ok a => simp [createCommand, htb] at h
  | exited m => simp [createCommand, htb] at h
  | thrown e' =>
    simp only [createCommand, htb, Outcome.fatalCaught.injEq] at h
    subst h
    refine ⟨⟨?_, ?_⟩, ?_, ?_⟩
    · intro hu
      cases e' with
      | str s => exact ⟨s, rfl⟩
      | other =>
        simp [createCommand, htb] at hu
        exact absurd hu hnu
    · rintro ⟨s, rfl⟩
      simp [createCommand, htb]
    · cases e' <;> simp [createCommand, htb]
    · simp [createCommand, htb, exitsNonzero]

/-- C8 witness: the failing-check oracle throws the plain string
`invalid App ID`, prints the usage hint, and exits non-zero. -/
theorem C8_failure_contract_witness :
    (Event.logUsage ∈ (createCommand envCheckFail "d" "n" "i").1 ↔
      ∃ s, Err.str "invalid App ID" = Err.str s) ∧
    Event.logFatalMsg (Err.str "invalid App ID") ∈
      (createCommand envCheckFail "d" "n" "i").1 ∧
    exitsNonzero (createCommand envCheckFail "d" "n" "i").2 = true :=
  C8_failure_contract envCheckFail "d" "n" "i" (Err.str "invalid App ID") (by decide)

theorem createCommand_cpFail (env : Env) (dir name id : String)
    (hE : EarlyOk env dir name id) (e : Err) (hcp : env.cpRes = some e) :
    createCommand env dir name id =
      (preTemplateTrace env dir name id ++
       [Event.taskStart (creatingDesc env dir name id),
        Event.cpTemplate env.templateDir (resolvedDir env dir)] ++
       usageFor e ++ [Event.logFatalMsg e],
       Outcome.fatalCaught e) := by
  obtain ⟨h1, h2, h3, h4, h5, h6⟩ := hE
  by_cases hd : dir = "" <;> by_cases hn : name = "" <;> by_cases hi : id = "" <;>
    cases e <;>
    simp_all [createCommand, tryBody, check, checkResult, checkEvent, mseq, fromOpt,
      getDir, getName, getAppId, inquirerAnswer, makeDirectory, runTask, create,
      preTemplateTrace, usageFor, resolvedDir, resolvedName, resolvedId, creatingDesc]

theorem createCommand_npmFail (env : Env) (dir name id : String)
    (hE : EarlyOk env dir name id) (hcp : env.cpRes = none) (e : Err)
    (hnpm : env.npmRes = some e) :
    createCommand env dir name id =
      (preTemplateTrace env dir name id ++
       [Event.taskStart (creatingDesc env dir name id),
        Event.cpTemplate env.templateDir (resolvedDir env dir),
        Event.taskEnd (creatingDesc env dir name id),
        Event.taskStart "Installing dependencies",
        Event.npmInstall (resolvedDir env dir) ["@capacitor/cli", "@capacitor/core"]] ++
       usageFor e ++ [Event.logFatalMsg e],
       Outcome.fatalCaught e) := by
  obtain ⟨h1, h2, h3, h4, h5, h6⟩ := hE
  by_cases hd : dir = "" <;> by_cases hn : name = "" <;> by_cases hi : id = "" <;>
    cases e <;>
    simp_all [createCommand, tryBody, check, checkResult, checkEvent, mseq, fromOpt,
      getDir, getName, getAppId, inquirerAnswer, makeDirectory, runTask, create,
      installDeps, preTemplateTrace, usageFor, resolvedDir, resolvedName, resolvedId,
      creatingDesc]

set_option maxHeartbeats 1600000 in
/-- C9: template instantiation is exactly two sequential sub-steps, each
reported as its own task — first the recursive copy of the template
directory into the workspace root, then the dependency install in the
workspace fetching exactly `@capacitor/cli` and `@capacitor/core`; the copy
completes before the install begins, and a failure of either sub-step
aborts every later pipeline stage. -/
theorem C9_template_instantiation (env : Env) (dir name id : String)
    (hE : EarlyOk env dir name id) (hL : LateOk env) :
    (env.cpRes = none → env.npmRes = none →
      ((createCommand env dir name id).1).filter taskPhase =
        [Event.taskStart (creatingDesc env dir name id),
         Event.cpTemplate env.templateDir (resolvedDir env dir),
         Event.taskEnd (creatingDesc env dir name id),
         Event.taskStart "Installing dependencies",
         Event.npmInstall (resolvedDir env dir) ["@capacitor/cli", "@capacitor/core"],
         Event.taskEnd "Installing dependencies",
         Event.taskStart "add default platforms",
         Event.taskEnd "add default platforms"]) ∧
    (∀ e, env.cpRes = some e →
      ∀ ev ∈ (createCommand env dir name id).1, afterCopyFail ev = false) ∧
    (env.cpRes = none → ∀ e, env.npmRes = some e →
      ∀ ev ∈ (createCommand env dir name id).1, afterInstallFail ev = false) := by
  refine ⟨?_, ?_, ?_⟩
  · intro hcp hnpm
    rw [createCommand_allOk env dir name id ⟨hE, hcp, hnpm, hL⟩]
    by_cases hd : dir = "" <;> by_cases hn : name = "" <;> by_cases hi : id = "" <;>
      by_cases hos : env.os = OS.mac <;>
      simp [successTrace, taskPhase, hd, hn, hi, hos]
  · intro e hcp
    rw [createCommand_cpFail env dir name id hE e hcp]
    by_cases hd : dir = "" <;> by_cases hn : name = "" <;> by_cases hi : id = "" <;>
      cases e <;>
      simp [preTemplateTrace, usageFor, afterCopyFail, hd, hn, hi]
  · intro hcp e hnpm
    rw [createCommand_npmFail env dir name id hE hcp e hnpm]
    by_cases hd : dir = "" <;> by_cases hn : name = "" <;> by_cases hi : id = "" <;>
      cases e <;>
      simp [preTemplateTrace, usageFor, afterInstallFail, hd, hn, hi]

/-- C9 witness: the two reported sub-steps in order at the concrete
all-success oracle. -/
theorem C9_template_instantiation_witness :
    (envOk.cpRes = none → envOk.npmRes = none →
      ((createCommand envOk "d" "n" "i").1).filter taskPhase =
        [Event.taskStart (creatingDesc envOk "d" "n" "i"),
         Event.cpTemplate envOk.templateDir (resolvedDir envOk "d"),
         Event.taskEnd (creatingDesc envOk "d" "n" "i"),
         Event.taskStart "Installing dependencies",
         Event.npmInstall (resolvedDir envOk "d") ["@capacitor/cli", "@capacitor/core"],
         Event.taskEnd "Installing dependencies",
         Event.taskStart "add default platforms",
         Event.taskEnd "add default platforms"]) ∧
    (∀ e, envOk.cpRes = some e →
      ∀ ev ∈ (createCommand envOk "d" "n" "i").1, afterCopyFail ev = false) ∧
    (envOk.cpRes = none → ∀ e, envOk.npmRes = some e →
      ∀ ev ∈ (createCommand envOk "d" "n" "i").1, afterInstallFail ev = false) :=
  C9_template_instantiation envOk "d" "n" "i" (by decide) (by decide)

end CapCreate
